import Mathlib

/-!
# The speech session adapter of `Interface_WebSpeech/webSpeech.js`

A shallow embedding of the script: its module-level variables together with
the parts of the page and of the two engines that the script reads or writes
form an explicit `State`; every function of the script is a function on that
state.

The script is embedded twice.

* The first embedding is the script on the page it is written for. The page
  is not part of the script; the script looks up four of its elements by id:
  the log `dataWindow`, the selection list `voiceList` and the inputs `pitch`
  and `rate`. They are the user interface of section 6 of the specification
  and are present, with numeric inputs for pitch and rate, so reading and
  writing their properties does not raise, and neither does filling in an
  utterance from them. What can raise is a call into the speech engines
  (`listener.start ()`, `listener.stop ()`, `speaker.getVoices ()`,
  `speaker.speak (utterance)`); what such a call does is an argument of the
  function that makes it. A `try { ... } catch (ex) { alert (ex); }` block
  is then a function that returns a state, and the exception it catches is
  appended to `State.alerts`.
* The second embedding, in the namespace `Raising`, lets every statement
  that touches the page or an engine raise, keeps the exception that
  propagates out of a function, and has the `try` blocks of the script as
  explicit catch clauses. It is the one used for the statement about
  failures. When only the engine calls raise it gives the states of the
  first embedding (`raising_agrees`).

The log element is kept as the list of the messages handed to `addToLog`,
oldest first. The markup the page makes of them and its scroll position are
not kept.
-/

namespace WebSpeech

/-! ## Data model -/

/-- A value that a `throw` raises and that `alert (ex)` shows. -/
inductive Exn where
  /-- The text thrown by the script itself (`throw '...'`). -/
  | thrown (text : String)
  /-- The error of reading a property of `undefined`. -/
  | typeError
  /-- An exception raised inside a call of the platform, by its name. -/
  | platform (name : String)
  deriving DecidableEq, Repr

/-- One alternative of a recognition result. `confidence` is the number as the
string concatenation of the script renders it. -/
structure SpeechRecognitionAlternative where
  transcript : String
  confidence : String
  deriving DecidableEq, Repr

/-- A recognition result: its alternatives, best first. -/
abbrev SpeechRecognitionResult := List SpeechRecognitionAlternative

/-- The value of `event.results`: the results accumulated by the session. -/
abbrev SpeechRecognitionResultList := List SpeechRecognitionResult

/-- A voice of the synthesizer, as `speaker.getVoices ()` describes it. -/
structure Voice where
  name : String
  lang : String
  default : Bool
  deriving DecidableEq, Repr

/-- An `option` element appended to the selection list. -/
structure OptionElement where
  textContent : String
  dataLang : String
  dataName : String
  deriving DecidableEq, Repr

/-- A `SpeechSynthesisUtterance` as the script fills it in. `voice` is `none`
when `voices[selectedIndex]` is `undefined`; `pitch` and `rate` are the values
of the two inputs, as read. -/
structure Utterance where
  text : String
  voice : Option Voice
  pitch : String
  rate : String
  deriving DecidableEq, Repr

/-- The properties the script sets on the `SpeechRecognition` object. -/
structure Listener where
  continuous : Bool
  lang : String
  interimResults : Bool
  maxAlternatives : Nat
  deriving DecidableEq, Repr

/-- The `speechSynthesis` object: whether `populateVoiceList` is installed as
its `onvoiceschanged` handler. -/
structure Speaker where
  onvoiceschanged : Bool
  deriving DecidableEq, Repr

/-- A method call made on `listener`. -/
inductive ListenerCall where
  | start
  | stop
  deriving DecidableEq, Repr

/-- The module-level variables of the script (`listener` .. `numResults`),
the two page elements it writes (`dataWindow`, `voiceList`), the notices shown
by `alert`, and the calls made on the two engines, oldest first. -/
structure State where
  listener : Option Listener
  speaker : Option Speaker
  canListen : Bool
  canSpeak : Bool
  voices : List Voice
  numResults : Nat
  dataWindow : List String
  voiceList : List OptionElement
  alerts : List Exn
  listenerCalls : List ListenerCall
  speakCalls : List Utterance
  deriving DecidableEq, Repr

/-- The element handed to `speakIt`; the script reads its `value`. -/
structure TextInput where
  value : String
  deriving DecidableEq, Repr

/-- What the document holds when `speakIt` reads it:
`voiceList.selectedIndex` (-1 when nothing is selected), `pitch.value` and
`rate.value`. -/
structure Controls where
  selectedIndex : Int
  pitch : String
  rate : String
  deriving DecidableEq, Repr

/-- What the script probes of `window`: each global is present or not. -/
structure Window where
  SpeechRecognition : Bool
  webkitSpeechRecognition : Bool
  SpeechRecognitionEvent : Bool
  webkitSpeechRecognitionEvent : Bool
  /-- What `new SpeechRecognition ()` does where the constructor is present:
  `none` when it returns the new object, `some ex` when it raises. -/
  newSpeechRecognition : Option Exn
  speechSynthesis : Bool
  deriving DecidableEq, Repr

/-! ## The script -/

/-- The function `alert (ex)`: one more notice. -/
def alert (s : State) (ex : Exn) : State :=
  { s with alerts := s.alerts ++ [ex] }

/-- The function `addToLog (htmlMessage)` (lines 219-230) on a page that has
the log element: the message is one more entry of the log. Its two guarded
statements write properties of that element and do not raise there, so the
handler of its `try` is not entered. -/
def addToLog (s : State) (htmlMessage : String) : State :=
  { s with dataWindow := s.dataWindow ++ [htmlMessage] }

/-- The function `startListening ()` (lines 118-133). `start` is what
`listener.start ()` does: `none` when it returns, `some ex` when it raises.
The call is recorded in either case. -/
def startListening (s : State) (start : Option Exn) : State :=
  if s.canListen then
    let s1 := { s with numResults := 0 }
    let s2 := { s1 with listenerCalls := s1.listenerCalls ++ [ListenerCall.start] }
    match start with
    | some ex => alert s2 ex
    | none => addToLog s2 "Listening ..."
  else s

/-- The function `stopListening ()` (lines 137-148). `stop` is what
`listener.stop ()` does. -/
def stopListening (s : State) (stop : Option Exn) : State :=
  if s.canListen then
    let s1 := { s with listenerCalls := s.listenerCalls ++ [ListenerCall.stop] }
    match stop with
    | some ex => alert s1 ex
    | none => s1
  else s

/-- The text appended after the label of the default voice (line 169), with
the characters the source file holds. -/
def defaultMarker : String := " â€” DEFAULT"

/-- The body of the `for` loop of `populateVoiceList` (lines 165-172): the
`option` element built for one voice. -/
def optionFor (voice : Voice) : OptionElement :=
  let textContent := voice.name ++ " (" ++ voice.lang ++ ")"
  { textContent := if voice.default then textContent ++ defaultMarker else textContent
    dataLang := voice.lang
    dataName := voice.name }

/-- The `for` loop of `populateVoiceList` (lines 163-175): one `appendChild`
per voice, in order. -/
def appendOptions (options : List OptionElement) : List Voice → List OptionElement
  | [] => options
  | voice :: rest => appendOptions (options ++ [optionFor voice]) rest

/-- The function `populateVoiceList ()` (lines 152-182). `getVoices` is what
`speaker.getVoices ()` does: it returns a catalog or raises. -/
def populateVoiceList (s : State) (getVoices : Except Exn (List Voice)) : State :=
  if s.canSpeak then
    let s1 := { s with voiceList := [] }
    match getVoices with
    | .error ex => alert s1 ex
    | .ok catalog =>
      let s2 := { s1 with voices := catalog }
      { s2 with voiceList := appendOptions s2.voiceList s2.voices }
  else s

/-- The expression `voices[selectedIndex]`: `none` stands for `undefined`. -/
def voiceAt (voices : List Voice) (selectedIndex : Int) : Option Voice :=
  if 0 ≤ selectedIndex then voices[selectedIndex.toNat]? else none

/-- The utterance `speakIt` builds (lines 196-201). -/
def utteranceFor (voices : List Voice) (text : String) (doc : Controls) : Utterance :=
  { text := text
    voice := voiceAt voices doc.selectedIndex
    pitch := doc.pitch
    rate := doc.rate }

/-- The function `speakIt (textInput)` (lines 186-215). `doc` is what the
document holds, `speak` what `speaker.speak (utterance)` does; the utterance
handed to `speaker.speak` is recorded whether the call returns or raises.
`text.length > 0` holds for every string but the empty one. -/
def speakIt (s : State) (textInput : TextInput) (doc : Controls) (speak : Option Exn) : State :=
  let text := textInput.value
  if s.canSpeak && text.length > 0 then
    let s1 := addToLog s ("speaking: " ++ text)
    let utterance := utteranceFor s1.voices text doc
    let s2 := { s1 with speakCalls := s1.speakCalls ++ [utterance] }
    match speak with
    | some ex => alert s2 ex
    | none => s2
  else s

/-- The handler `listener.onresult` (lines 52-67). It has no `try`: when
`event.results[numResults]` or its element 0 is `undefined` the handler raises
before it changes anything. -/
def onresult (s : State) (results : SpeechRecognitionResultList) : Except Exn State :=
  match results[s.numResults]? with
  | none => .error Exn.typeError
  | some result =>
    match result[0]? with
    | none => .error Exn.typeError
    | some alternative =>
      let output := alternative.transcript ++ " (" ++ alternative.confidence ++ ")"
      .ok (addToLog { s with numResults := s.numResults + 1 } output)

/-- The handler `listener.onnomatch` (lines 69-72). -/
def onnomatch (s : State) : State :=
  addToLog s "((( I did not recognise that )))"

/-- The handler `listener.onend` (lines 74-80). -/
def onend (s : State) : State :=
  addToLog s "((( I stopped listening )))"

/-- The handler `listener.onerror` (lines 82-85); `error` is `event.error`. -/
def onerror (s : State) (error : String) : State :=
  addToLog s ("((( Error occurred in recognition ))) " ++ error)

/-- The constant `SpeechRecognition` of line 16. -/
def SpeechRecognition (w : Window) : Bool :=
  w.SpeechRecognition || w.webkitSpeechRecognition

/-- The constant `SpeechRecognitionEvent` of line 17. -/
def SpeechRecognitionEvent (w : Window) : Bool :=
  w.SpeechRecognitionEvent || w.webkitSpeechRecognitionEvent

/-- The state when the script starts: the declarations of lines 19-25, on a
page whose log holds `log` and whose selection list holds `options`. -/
def loaded (log : List String) (options : List OptionElement) : State :=
  { listener := none
    speaker := none
    canListen := false
    canSpeak := false
    voices := []
    numResults := 0
    dataWindow := log
    voiceList := options
    alerts := []
    listenerCalls := []
    speakCalls := [] }

/-- The startup block (lines 30-114), run on the state `s` of the loaded
script. `getVoices` and `start` are what the two engine calls it may make
do. An exception of `new SpeechRecognition ()` leaves the block through the
handler of lines 111-114, like the `throw` of line 35. When the constructor
returns, `listener` is an object, so the test of line 41 fails and line 42 is
not reached. -/
def startup (w : Window) (s : State) (getVoices : Except Exn (List Voice))
    (start : Option Exn) : State :=
  if !(SpeechRecognition w) || !(SpeechRecognitionEvent w) then
    alert s (Exn.thrown "This browser does not support speech.\nPlease use the Chrome browser.")
  else
    match w.newSpeechRecognition with
    | some ex => alert s ex
    | none =>
      let s1 :=
        { s with
          listener := some { continuous := true, lang := "en-US",
                             interimResults := false, maxAlternatives := 1 }
          canListen := true }
      let s2 :=
        if !w.speechSynthesis then
          addToLog { s1 with speaker := none } "This browser cannot speak."
        else
          populateVoiceList
            { s1 with speaker := some { onvoiceschanged := true }, canSpeak := true } getVoices
      startListening s2 start

/-! ## Drivers used to state the properties -/

/-- The line `onresult` writes for a result whose best alternative is
`alternative` (the expression of line 63). -/
def formatted (alternative : SpeechRecognitionAlternative) : String :=
  alternative.transcript ++ " (" ++ alternative.confidence ++ ")"

/-- The lines for the best alternatives of the results `r`; a result without
alternatives gives none. -/
def formattedAll (r : SpeechRecognitionResultList) : List String :=
  r.filterMap (fun result => result.head?.map formatted)

/-- A recognizer that fires `onresult` `n` times, the k-th time (from 1) with
the first k results of the array `r`. -/
def deliverPrefixes (r : SpeechRecognitionResultList) : Nat → State → Except Exn State
  | 0, s => .ok s
  | n + 1, s =>
    match deliverPrefixes r n s with
    | .error ex => .error ex
    | .ok s1 => onresult s1 (r.take (n + 1))

/-- A sequence of `speakIt` calls, first call first. -/
def speakAll (s : State) : List (TextInput × Controls × Option Exn) → State
  | [] => s
  | call :: rest => speakAll (speakIt s call.1 call.2.1 call.2.2) rest

/-! ## The recognizer the adapter is attached to -/

/-- Modelled from the spec: the Recognizer is the engine of the host platform,
which the script only calls. Sections 3 and 4.1 give it a session that is
stopped or listening, started by `start`, rejected when it is already running,
and a result sequence that accumulates over the session and is delivered whole
with every result. -/
structure Recognizer where
  listening : Bool
  results : SpeechRecognitionResultList
  deriving DecidableEq, Repr

/-- The adapter together with the recognizer it drives. -/
structure World where
  adapter : State
  recognizer : Recognizer
  deriving DecidableEq, Repr

/-- What can happen next: the two operations of the caller and the four events
of the recognizer. -/
inductive Step where
  | startListening
  | stopListening
  | result (r : SpeechRecognitionResult)
  | noMatch
  | error (code : String)
  | ended
  deriving DecidableEq, Repr

/-- One step. A `start` on a listening recognizer raises `InvalidStateError`
and leaves the session as it is; an accepted `start` opens a session with no
results. A result is added to the session and the whole sequence is handed to
`onresult`; a handler that raises leaves the adapter as it was. The session is
over when the recognizer fires `end`. -/
def step (w : World) : Step → World
  | .startListening =>
    if w.adapter.canListen then
      if w.recognizer.listening then
        { w with adapter := startListening w.adapter (some (Exn.platform "InvalidStateError")) }
      else
        { adapter := startListening w.adapter none
          recognizer := { listening := true, results := [] } }
    else { w with adapter := startListening w.adapter none }
  | .stopListening => { w with adapter := stopListening w.adapter none }
  | .result r =>
    if w.recognizer.listening then
      let results := w.recognizer.results ++ [r]
      match onresult w.adapter results with
      | .ok adapter => { adapter := adapter, recognizer := { w.recognizer with results := results } }
      | .error _ => { w with recognizer := { w.recognizer with results := results } }
    else w
  | .noMatch => { w with adapter := onnomatch w.adapter }
  | .error code => { w with adapter := onerror w.adapter code }
  | .ended =>
    { adapter := onend w.adapter
      recognizer := { w.recognizer with listening := false } }

/-- A sequence of steps, first step first. -/
def run (w : World) : List Step → World
  | [] => w
  | e :: rest => run (step w e) rest

/-- The world once the script has run its startup block on an empty page: the
recognizer is listening exactly when the adapter called `start`. -/
def boot (w : Window) (getVoices : Except Exn (List Voice)) : World :=
  let adapter := startup w (loaded [] []) getVoices none
  { adapter := adapter
    recognizer := { listening := adapter.canListen, results := [] } }

/-- A browser with both engines, under the prefixed names. -/
def chrome : Window :=
  { SpeechRecognition := false
    webkitSpeechRecognition := true
    SpeechRecognitionEvent := false
    webkitSpeechRecognitionEvent := true
    newSpeechRecognition := none
    speechSynthesis := true }

/-- A browser with the synthesizer and without the recognizer. -/
def synthesisOnly : Window :=
  { SpeechRecognition := false
    webkitSpeechRecognition := false
    SpeechRecognitionEvent := false
    webkitSpeechRecognitionEvent := false
    newSpeechRecognition := none
    speechSynthesis := true }

/-- A state after startup on `chrome` with two voices, used as a concrete
input. -/
def sample : State :=
  startup chrome (loaded [] [])
    (.ok [{ name := "A", lang := "en-US", default := true },
          { name := "B", lang := "fr-FR", default := false }]) none

/-! ## The script when any statement may raise -/

/-- A run of statements of the script: the state reached, every exception
raised so far, caught or not, oldest first, and the exception that is
propagating because no handler has caught it yet. -/
structure Run where
  state : State
  raised : List Exn
  pending : Option Exn
  deriving DecidableEq, Repr

/-- The first exception in a sequence of statements, each given by what it
does: the statements after one that raises are not reached. -/
def firstRaise : List (Option Exn) → Option Exn
  | [] => none
  | some ex :: _ => some ex
  | none :: rest => firstRaise rest

/-- A run that has not executed anything yet. -/
def Run.enter (s : State) : Run :=
  { state := s, raised := [], pending := none }

/-- One statement. It is not reached while an exception propagates. When it
is reached it either raises, and its exception starts to propagate, or it
returns, and its effect takes place. -/
def Run.call (r : Run) (behaviour : Option Exn) (effect : State → State) : Run :=
  match r.pending with
  | some _ => r
  | none =>
    match behaviour with
    | some ex => { r with raised := r.raised ++ [ex], pending := some ex }
    | none => { r with state := effect r.state }

/-- An assignment to a variable of the script: a statement that cannot
raise. -/
def Run.assign (r : Run) (effect : State → State) : Run :=
  r.call none effect

/-- The clause `catch (ex) { alert (ex); }` at the end of a `try`: an
exception that propagates is shown and propagates no further. -/
def Run.catchAlert (r : Run) : Run :=
  match r.pending with
  | some ex => { r with state := alert r.state ex, pending := none }
  | none => r

/-- What the page does at the two statements of `addToLog`: the write of
`dataWindow.innerHTML` (line 223) and the write of `dataWindow.scrollTop`
(line 224). -/
structure LogAccess where
  innerHTML : Option Exn
  scrollTop : Option Exn
  deriving DecidableEq, Repr

/-- What the recognizer and the page do during `startListening`. -/
structure StartAccess where
  start : Option Exn
  log : LogAccess
  deriving DecidableEq, Repr

/-- What the page and the synthesizer do during `populateVoiceList`: the
lookup of line 158, the write of `innerText` (line 159), `speaker.getVoices ()`
(line 161), and the body of the loop (lines 165-174) for the voice at each
position of the catalog. -/
structure VoiceListAccess where
  getElementById : Option Exn
  innerText : Option Exn
  getVoices : Except Exn (List Voice)
  option : Nat → Option Exn

/-- What the page and the synthesizer do during `speakIt`: the read of
`textInput.value` (line 190), the two statements of `addToLog`, the
constructor of the utterance (line 196), the read of `selectedIndex`
(line 197), the three property writes with their reads of the page
(lines 199-201), and `speaker.speak (utterance)` (line 206). -/
structure SpeakAccess where
  value : Option Exn
  log : LogAccess
  utterance : Option Exn
  selectedIndex : Option Exn
  voice : Option Exn
  pitch : Option Exn
  rate : Option Exn
  speak : Option Exn
  deriving DecidableEq, Repr

/-- A page whose log element takes both writes. -/
def LogAccess.quiet : LogAccess :=
  { innerHTML := none, scrollTop := none }

/-- A page and a synthesizer with which no statement of `speakIt` raises. -/
def SpeakAccess.quiet : SpeakAccess :=
  { value := none, log := LogAccess.quiet, utterance := none, selectedIndex := none,
    voice := none, pitch := none, rate := none, speak := none }

/-- The function `addToLog (htmlMessage)` (lines 219-230), called in the run
`r`: both statements are inside its own `try`. -/
def Raising.addToLog (r : Run) (htmlMessage : String) (page : LogAccess) : Run :=
  match r.pending with
  | some _ => r
  | none =>
    ((r.call page.innerHTML
        (fun s => { s with dataWindow := s.dataWindow ++ [htmlMessage] })).call
      page.scrollTop (fun s => s)).catchAlert

/-- The function `startListening ()` (lines 118-133). -/
def Raising.startListening (s : State) (env : StartAccess) : Run :=
  (if s.canListen then
    Raising.addToLog
      ((((Run.enter s).assign (fun s => { s with numResults := 0 })).assign
          (fun s => { s with listenerCalls := s.listenerCalls ++ [ListenerCall.start] })).call
        env.start (fun s => s))
      "Listening ..." env.log
  else Run.enter s).catchAlert

/-- The function `stopListening ()` (lines 137-148). -/
def Raising.stopListening (s : State) (stop : Option Exn) : Run :=
  (if s.canListen then
    ((Run.enter s).assign
        (fun s => { s with listenerCalls := s.listenerCalls ++ [ListenerCall.stop] })).call
      stop (fun s => s)
  else Run.enter s).catchAlert

/-- The `for` loop of `populateVoiceList` (lines 163-175), from the voice at
position `i` on: the body for a voice either raises or appends its option. -/
def Raising.appendOptions (body : Nat → Option Exn) : Nat → List Voice → Run → Run
  | _, [], r => r
  | i, voice :: rest, r =>
    Raising.appendOptions body (i + 1) rest
      (r.call (body i) (fun s => { s with voiceList := s.voiceList ++ [optionFor voice] }))

/-- The function `populateVoiceList ()` (lines 152-182). -/
def Raising.populateVoiceList (s : State) (env : VoiceListAccess) : Run :=
  (if s.canSpeak then
    let r := ((Run.enter s).call env.getElementById (fun s => s)).call env.innerText
      (fun s => { s with voiceList := [] })
    match env.getVoices with
    | .error ex => r.call (some ex) (fun s => s)
    | .ok catalog =>
      Raising.appendOptions env.option 0 catalog
        (r.assign (fun s => { s with voices := catalog }))
  else Run.enter s).catchAlert

/-- The function `speakIt (textInput)` (lines 186-215). The utterance is
recorded when `speaker.speak` is reached. -/
def Raising.speakIt (s : State) (textInput : TextInput) (doc : Controls)
    (env : SpeakAccess) : Run :=
  let r := (Run.enter s).call env.value (fun s => s)
  let text := textInput.value
  (if s.canSpeak && text.length > 0 then
    (((((((Raising.addToLog r ("speaking: " ++ text) env.log).call
        env.utterance (fun s => s)).call
        env.selectedIndex (fun s => s)).call
        env.voice (fun s => s)).call
        env.pitch (fun s => s)).call
        env.rate (fun s => s)).assign
        (fun s => { s with speakCalls := s.speakCalls ++ [utteranceFor s.voices text doc] })).call
      env.speak (fun s => s)
  else r).catchAlert

/-! ## Basic facts -/

theorem length_pos_iff (text : String) : text.length > 0 ↔ text ≠ "" := by
  cases text with
  | mk data =>
    cases data <;> simp [String.length, String.ext_iff]

theorem startListening_numResults (s : State) (h : s.canListen = true) (start : Option Exn) :
    (startListening s start).numResults = 0 := by
  cases start <;> simp [startListening, h, alert, addToLog]

theorem startListening_canListen (s : State) (start : Option Exn) :
    (startListening s start).canListen = s.canListen := by
  cases start <;> cases h : s.canListen <;> simp [startListening, h, alert, addToLog]

/-! ## Listening -/

/-- C2. With recognition available, whatever the cursor was and whatever the
two `listener.start ()` calls do, two `startListening` calls in a row leave the
cursor at 0, and the next `onresult` reads the result at index 0 of the
sequence it is given: it logs the line of that result and moves the cursor
to 1. -/
theorem restart_resets_cursor (s : State) (h : s.canListen = true) (first second : Option Exn) :
    (startListening (startListening s first) second).numResults = 0 ∧
    ∀ (alternative : SpeechRecognitionAlternative) (others : SpeechRecognitionResult)
      (later : SpeechRecognitionResultList),
      onresult (startListening (startListening s first) second) ((alternative :: others) :: later)
        = .ok (addToLog { startListening (startListening s first) second with numResults := 1 }
                (formatted alternative)) := by
  have h1 : (startListening s first).canListen = true := by
    rw [startListening_canListen]; exact h
  have h0 := startListening_numResults (startListening s first) h1 second
  refine ⟨h0, ?_⟩
  intro alternative others later
  simp [onresult, h0, formatted]

theorem restart_resets_cursor_witness :
    ({ sample with numResults := 7 } : State).canListen = true ∧
    (startListening (startListening { sample with numResults := 7 } none)
        (some (Exn.platform "InvalidStateError"))).numResults = 0 :=
  ⟨by decide,
   (restart_resets_cursor { sample with numResults := 7 } (by decide) none
      (some (Exn.platform "InvalidStateError"))).1⟩

/-- C8. When `canListen` is false, `startListening` and `stopListening` return
the state they were given, whatever the recognizer would do: no call is made
on the listener, no notice is raised, and the cursor, the voices, the flags
and the log are unchanged. -/
theorem no_recognition_noop (s : State) (h : s.canListen = false) (behaviour : Option Exn) :
    startListening s behaviour = s ∧ stopListening s behaviour = s := by
  simp [startListening, stopListening, h]

theorem no_recognition_noop_witness :
    (loaded ["old line"] []).canListen = false ∧
    startListening (loaded ["old line"] []) (some Exn.typeError) = loaded ["old line"] [] ∧
    stopListening (loaded ["old line"] []) (some Exn.typeError) = loaded ["old line"] [] :=
  ⟨by decide, no_recognition_noop (loaded ["old line"] []) (by decide) (some Exn.typeError)⟩

/-- C10. Each of `onnomatch`, `onerror` and `onend` adds one line to the log
(for `onerror` the line ends with the error code) and changes nothing else:
the cursor, the voices, the two flags, the notices and the calls made on the
listener and on the speaker are as before. -/
theorem callbacks_only_log (s : State) (code : String) :
    onnomatch s = { s with dataWindow := s.dataWindow ++ ["((( I did not recognise that )))"] } ∧
    onerror s code
      = { s with dataWindow := s.dataWindow ++ ["((( Error occurred in recognition ))) " ++ code] } ∧
    onend s = { s with dataWindow := s.dataWindow ++ ["((( I stopped listening )))"] } ∧
    ∀ after ∈ [onnomatch s, onerror s code, onend s],
      after.numResults = s.numResults ∧ after.voices = s.voices ∧
      after.canListen = s.canListen ∧ after.canSpeak = s.canSpeak ∧
      after.listenerCalls = s.listenerCalls ∧ after.speakCalls = s.speakCalls ∧
      after.alerts = s.alerts ∧ after.dataWindow.length = s.dataWindow.length + 1 := by
  refine ⟨rfl, rfl, rfl, ?_⟩
  intro after hmem
  simp only [List.mem_cons, List.mem_singleton, List.mem_nil_iff, or_false] at hmem
  rcases hmem with rfl | rfl | rfl <;> simp [onnomatch, onerror, onend, addToLog]

/-! ## Speaking -/

/-- C4. `speakIt` adds a line to the log and hands an utterance to
`speaker.speak` exactly when `canSpeak` holds and the text is not empty; in
the other case it returns the state it was given, so nothing is logged,
nothing is submitted and no notice is raised. -/
theorem speakIt_guard (s : State) (text : String) (doc : Controls) (speak : Option Exn) :
    ((∃ line utterance,
        (speakIt s { value := text } doc speak).dataWindow = s.dataWindow ++ [line] ∧
        (speakIt s { value := text } doc speak).speakCalls = s.speakCalls ++ [utterance])
      ↔ (s.canSpeak = true ∧ text ≠ "")) ∧
    (¬ (s.canSpeak = true ∧ text ≠ "") → speakIt s { value := text } doc speak = s) := by
  by_cases hg : s.canSpeak = true ∧ text ≠ ""
  · obtain ⟨hc, ht⟩ := hg
    have hl : text.length > 0 := (length_pos_iff text).2 ht
    refine ⟨⟨fun _ => ⟨hc, ht⟩, fun _ => ?_⟩, fun hn => absurd ⟨hc, ht⟩ hn⟩
    refine ⟨"speaking: " ++ text, utteranceFor s.voices text doc, ?_⟩
    cases speak <;> simp [speakIt, hc, hl, addToLog, alert]
  · have hs : speakIt s { value := text } doc speak = s := by
      have hl : ¬ (s.canSpeak = true ∧ text.length > 0) := by
        rw [length_pos_iff]; exact hg
      simp only [speakIt, Bool.and_eq_true, decide_eq_true_eq]
      rw [if_neg hl]
    refine ⟨⟨?_, fun h => absurd h hg⟩, fun _ => hs⟩
    rintro ⟨line, utterance, hd, -⟩
    rw [hs] at hd
    have := congrArg List.length hd
    simp at this

theorem speakIt_step (s : State) (h : s.canSpeak = true) (textInput : TextInput)
    (ht : textInput.value ≠ "") (doc : Controls) (speak : Option Exn) :
    (speakIt s textInput doc speak).speakCalls
        = s.speakCalls ++ [utteranceFor s.voices textInput.value doc] ∧
      (speakIt s textInput doc speak).dataWindow
        = s.dataWindow ++ ["speaking: " ++ textInput.value] ∧
      (speakIt s textInput doc speak).voices = s.voices ∧
      (speakIt s textInput doc speak).canSpeak = true := by
  have hl : textInput.value.length > 0 := (length_pos_iff _).2 ht
  cases speak <;> simp [speakIt, h, hl, addToLog, alert]

theorem speakAll_speakCalls (calls : List (TextInput × Controls × Option Exn)) :
    ∀ s : State, s.canSpeak = true → (∀ call ∈ calls, call.1.value ≠ "") →
      (speakAll s calls).speakCalls
        = s.speakCalls ++ calls.map (fun call => utteranceFor s.voices call.1.value call.2.1) := by
  induction calls with
  | nil => intro s _ _; simp [speakAll]
  | cons call rest ih =>
    intro s h hne
    have hc : call.1.value ≠ "" := hne call (List.mem_cons_self _ _)
    obtain ⟨h1, -, h3, h4⟩ := speakIt_step s h call.1 hc call.2.1 call.2.2
    have hrest : ∀ c ∈ rest, c.1.value ≠ "" := fun c hmem => hne c (List.mem_cons_of_mem _ hmem)
    simp only [speakAll, List.map_cons]
    rw [ih _ h4 hrest, h1, h3, List.append_assoc, List.singleton_append]

/-- C5. With synthesis available, a non-empty text and a selected index inside
the cached voices, `speakIt` adds exactly the line `speaking: ` followed by the
text and hands `speaker.speak` exactly one utterance: its text is the text,
its voice the cached voice at the index, its pitch and rate the values read,
unchanged. A sequence of `speakIt` calls with non-empty texts hands its
utterances over in call order. All of this whatever `speaker.speak` does. -/
theorem speakIt_effect (s : State) (h : s.canSpeak = true) (text : String) (ht : text ≠ "")
    (voiceIndex : Nat) (hv : voiceIndex < s.voices.length) (pitch rate : String)
    (speak : Option Exn) :
    (speakIt s { value := text } { selectedIndex := voiceIndex, pitch := pitch, rate := rate }
        speak).dataWindow = s.dataWindow ++ ["speaking: " ++ text] ∧
    (speakIt s { value := text } { selectedIndex := voiceIndex, pitch := pitch, rate := rate }
        speak).speakCalls
      = s.speakCalls ++ [{ text := text, voice := some (s.voices.get ⟨voiceIndex, hv⟩),
                           pitch := pitch, rate := rate }] ∧
    ∀ calls : List (TextInput × Controls × Option Exn), (∀ call ∈ calls, call.1.value ≠ "") →
      (speakAll s calls).speakCalls
        = s.speakCalls ++ calls.map (fun call => utteranceFor s.voices call.1.value call.2.1) := by
  obtain ⟨h1, h2, -, -⟩ := speakIt_step s h { value := text } ht
    { selectedIndex := voiceIndex, pitch := pitch, rate := rate } speak
  refine ⟨h2, ?_, fun calls hne => speakAll_speakCalls calls s h hne⟩
  rw [h1]
  simp [utteranceFor, voiceAt, List.getElem?_eq_getElem hv]

theorem speakIt_effect_witness :
    (speakIt sample { value := "Hello" } { selectedIndex := 1, pitch := "1.0", rate := "1.0" }
        none).speakCalls
      = [{ text := "Hello", voice := some { name := "B", lang := "fr-FR", default := false },
           pitch := "1.0", rate := "1.0" }] :=
  (speakIt_effect sample (by decide) "Hello" (by decide) 1 (by decide) "1.0" "1.0" none).2.1

/-! ## Failures -/

theorem firstRaise_none (faults : List (Option Exn)) (h : ∀ fault ∈ faults, fault = none) :
    firstRaise faults = none := by
  induction faults with
  | nil => rfl
  | cons fault rest ih =>
    have hfault : fault = none := h fault (List.mem_cons_self _ _)
    subst hfault
    exact ih (fun x hx => h x (List.mem_cons_of_mem _ hx))

theorem call_skips (r : Run) (ex : Exn) (h : r.pending = some ex) (behaviour : Option Exn)
    (effect : State → State) : r.call behaviour effect = r := by
  simp [Run.call, h]

theorem appendOptions_skips (body : Nat → Option Exn) (catalog : List Voice) :
    ∀ (i : Nat) (r : Run) (ex : Exn), r.pending = some ex →
      Raising.appendOptions body i catalog r = r := by
  induction catalog with
  | nil => intro i r ex _; rfl
  | cons voice rest ih =>
    intro i r ex h
    simp only [Raising.appendOptions]
    rw [call_skips r ex h]
    exact ih (i + 1) r ex h

theorem appendOptions_raised (body : Nat → Option Exn) (catalog : List Voice) :
    ∀ (i : Nat) (r : Run), r.pending = none →
      (Raising.appendOptions body i catalog r).raised
          = r.raised ++ (firstRaise ((List.range' i catalog.length).map body)).toList ∧
      (Raising.appendOptions body i catalog r).pending
          = firstRaise ((List.range' i catalog.length).map body) ∧
      (Raising.appendOptions body i catalog r).state.alerts = r.state.alerts := by
  induction catalog with
  | nil => intro i r h; simp [Raising.appendOptions, firstRaise, h]
  | cons voice rest ih =>
    intro i r h
    simp only [Raising.appendOptions, List.length_cons, List.range'_succ, List.map_cons]
    cases hb : body i with
    | some ex =>
      have hp : (r.call (some ex)
          (fun s => { s with voiceList := s.voiceList ++ [optionFor voice] })).pending
          = some ex := by simp [Run.call, h]
      rw [appendOptions_skips body rest (i + 1) _ ex hp]
      simp [Run.call, h, firstRaise]
    | none =>
      have hp : (r.call none
          (fun s => { s with voiceList := s.voiceList ++ [optionFor voice] })).pending
          = none := by simp [Run.call, h]
      obtain ⟨h1, h2, h3⟩ := ih (i + 1) _ hp
      rw [h1, h2, h3]
      simp [Run.call, h, firstRaise]

theorem appendOptions_raises (body : Nat → Option Exn) (catalog : List Voice) (i : Nat)
    (r : Run) (h : r.pending = none) :
    (Raising.appendOptions body i catalog r).raised
      = r.raised ++ (firstRaise ((List.range' i catalog.length).map body)).toList :=
  (appendOptions_raised body catalog i r h).1

theorem appendOptions_pending (body : Nat → Option Exn) (catalog : List Voice) (i : Nat)
    (r : Run) (h : r.pending = none) :
    (Raising.appendOptions body i catalog r).pending
      = firstRaise ((List.range' i catalog.length).map body) :=
  (appendOptions_raised body catalog i r h).2.1

theorem appendOptions_alerts (body : Nat → Option Exn) (catalog : List Voice) (i : Nat)
    (r : Run) (h : r.pending = none) :
    (Raising.appendOptions body i catalog r).state.alerts = r.state.alerts :=
  (appendOptions_raised body catalog i r h).2.2

theorem appendOptions_quiet (catalog : List Voice) :
    ∀ (i : Nat) (r : Run), r.pending = none →
      Raising.appendOptions (fun _ => none) i catalog r
        = { r with state := { r.state with
                              voiceList := appendOptions r.state.voiceList catalog } } := by
  induction catalog with
  | nil => intro i r _; rfl
  | cons voice rest ih =>
    intro i r h
    simp only [Raising.appendOptions, appendOptions]
    rw [ih (i + 1) _ (by simp [Run.call, h])]
    simp [Run.call, h]

theorem startListening_run (s : State) (a : StartAccess) :
    (Raising.startListening s a).pending = none ∧
    (Raising.startListening s a).state.alerts = s.alerts ++ (Raising.startListening s a).raised ∧
    (Raising.startListening s a).raised
      = (if s.canListen = true
          then (firstRaise [a.start, a.log.innerHTML, a.log.scrollTop]).toList else []) ∧
    (∀ ex : Exn, a.start = some ex →
      (Raising.startListening s a).state.dataWindow = s.dataWindow) := by
  obtain ⟨start, ⟨write, scroll⟩⟩ := a
  cases hc : s.canListen <;> cases start <;> cases write <;> cases scroll <;>
    simp [Raising.startListening, Raising.addToLog, Run.enter, Run.call, Run.assign,
      Run.catchAlert, alert, firstRaise, hc]

theorem stopListening_run (s : State) (stop : Option Exn) :
    (Raising.stopListening s stop).pending = none ∧
    (Raising.stopListening s stop).state.alerts
      = s.alerts ++ (Raising.stopListening s stop).raised ∧
    (Raising.stopListening s stop).raised
      = (if s.canListen = true then stop.toList else []) := by
  cases hc : s.canListen <;> cases stop <;>
    simp [Raising.stopListening, Run.enter, Run.call, Run.assign, Run.catchAlert, alert, hc]

theorem populateVoiceList_run (s : State) (c : VoiceListAccess) :
    (Raising.populateVoiceList s c).pending = none ∧
    (Raising.populateVoiceList s c).state.alerts
      = s.alerts ++ (Raising.populateVoiceList s c).raised ∧
    (Raising.populateVoiceList s c).raised
      = (if s.canSpeak = true
          then (firstRaise (c.getElementById :: c.innerText ::
            (match c.getVoices with
              | .error ex => [some ex]
              | .ok catalog => (List.range' 0 catalog.length).map c.option))).toList
          else []) := by
  obtain ⟨lookup, clear, getVoices, body⟩ := c
  cases hc : s.canSpeak with
  | false => simp [Raising.populateVoiceList, Run.enter, Run.catchAlert, hc]
  | true =>
    cases lookup with
    | some ex =>
      cases getVoices <;>
        simp [Raising.populateVoiceList, Run.enter, Run.call, Run.assign, Run.catchAlert, alert,
          firstRaise, hc, appendOptions_skips body _ 0 _ ex]
    | none =>
      cases clear with
      | some ex =>
        cases getVoices <;>
          simp [Raising.populateVoiceList, Run.enter, Run.call, Run.assign, Run.catchAlert,
            alert, firstRaise, hc, appendOptions_skips body _ 0 _ ex]
      | none =>
        cases getVoices with
        | error ex =>
          simp [Raising.populateVoiceList, Run.enter, Run.call, Run.assign, Run.catchAlert,
            alert, firstRaise, hc]
        | ok catalog =>
          cases hf : firstRaise (List.map body (List.range' 0 catalog.length)) <;>
            simp [Raising.populateVoiceList, Run.enter, Run.call, Run.assign, Run.catchAlert,
              alert, firstRaise, hc, hf, appendOptions_pending, appendOptions_raises,
              appendOptions_alerts]

theorem speakIt_run (s : State) (textInput : TextInput) (doc : Controls) (d : SpeakAccess) :
    (Raising.speakIt s textInput doc d).pending = none ∧
    (Raising.speakIt s textInput doc d).state.alerts
      = s.alerts ++ (Raising.speakIt s textInput doc d).raised ∧
    (Raising.speakIt s textInput doc d).raised
      = (match d.value with
          | some ex => [ex]
          | none =>
            if s.canSpeak = true ∧ textInput.value ≠ "" then
              (firstRaise [d.log.innerHTML, d.log.scrollTop]).toList
                ++ (firstRaise [d.utterance, d.selectedIndex, d.voice, d.pitch, d.rate,
                      d.speak]).toList
            else []) := by
  obtain ⟨value, ⟨write, scroll⟩, utterance, selectedIndex, voice, pitch, rate, speak⟩ := d
  have hlen : (textInput.value.length > 0) ↔ textInput.value ≠ "" := length_pos_iff _
  cases value with
  | some ex =>
    by_cases hg : s.canSpeak = true ∧ textInput.value.length > 0 <;>
      simp [Raising.speakIt, Raising.addToLog, Run.enter, Run.call, Run.assign, Run.catchAlert,
        alert, hg]
  | none =>
    by_cases ht : textInput.value ≠ ""
    · have hl := hlen.2 ht
      cases hc : s.canSpeak with
      | false =>
        simp [Raising.speakIt, Run.enter, Run.call, Run.catchAlert, hc]
      | true =>
        cases write <;> cases scroll <;> cases utterance <;> cases selectedIndex <;>
          cases voice <;> cases pitch <;> cases rate <;> cases speak <;>
          simp [Raising.speakIt, Raising.addToLog, Run.enter, Run.call, Run.assign,
            Run.catchAlert, alert, firstRaise, hc, hl, ht]
    · have hl : ¬ textInput.value.length > 0 := fun hp => ht (hlen.1 hp)
      simp [Raising.speakIt, Run.enter, Run.call, Run.catchAlert, hl, ht]

/-- When nothing but the engine call raises, the second embedding reaches the
states of the first. -/
theorem raising_agrees (s : State) (textInput : TextInput) (doc : Controls)
    (behaviour : Option Exn) (getVoices : Except Exn (List Voice)) :
    (Raising.startListening s { start := behaviour, log := LogAccess.quiet }).state
      = startListening s behaviour ∧
    (Raising.stopListening s behaviour).state = stopListening s behaviour ∧
    (Raising.populateVoiceList s
        { getElementById := none, innerText := none, getVoices := getVoices,
          option := fun _ => none }).state
      = populateVoiceList s getVoices ∧
    (Raising.speakIt s textInput doc { SpeakAccess.quiet with speak := behaviour }).state
      = speakIt s textInput doc behaviour := by
  refine ⟨?_, ?_, ?_, ?_⟩
  · cases hc : s.canListen <;> cases behaviour <;>
      simp [Raising.startListening, Raising.addToLog, startListening, addToLog, LogAccess.quiet,
        Run.enter, Run.call, Run.assign, Run.catchAlert, alert, hc]
  · cases hc : s.canListen <;> cases behaviour <;>
      simp [Raising.stopListening, stopListening, Run.enter, Run.call, Run.assign,
        Run.catchAlert, alert, hc]
  · cases hc : s.canSpeak <;> cases getVoices <;>
      simp [Raising.populateVoiceList, populateVoiceList, Run.enter, Run.call, Run.assign,
        Run.catchAlert, alert, hc, appendOptions_quiet]
  · by_cases hl : textInput.value.length > 0 <;> cases hc : s.canSpeak <;> cases behaviour <;>
      simp [Raising.speakIt, Raising.addToLog, speakIt, addToLog, SpeakAccess.quiet,
        LogAccess.quiet, Run.enter, Run.call, Run.assign, Run.catchAlert, alert, hc, hl]

/-- C9. In the embedding where every statement that touches the page or an
engine may raise, each of the four operations returns normally: no exception
is left propagating. The notices it adds are exactly the exceptions raised
while it ran, one notice for each, in order. What is raised is the first
exception of each `try` block that is entered (the block of the operation,
and for `startListening` and `speakIt` the block of `addToLog`), so when no
statement raises no notice is added. When `listener.start ()` raises,
`startListening` adds no line to the log. -/
theorem failures_become_one_notice (s : State) (textInput : TextInput) (doc : Controls)
    (a : StartAccess) (stop : Option Exn) (c : VoiceListAccess) (d : SpeakAccess) :
    ((Raising.startListening s a).pending = none ∧
      (Raising.startListening s a).state.alerts
        = s.alerts ++ (Raising.startListening s a).raised ∧
      (Raising.startListening s a).raised
        = (if s.canListen = true
            then (firstRaise [a.start, a.log.innerHTML, a.log.scrollTop]).toList else []) ∧
      (a.start = none → a.log = LogAccess.quiet →
        (Raising.startListening s a).state.alerts = s.alerts) ∧
      (∀ ex : Exn, a.start = some ex →
        (Raising.startListening s a).state.dataWindow = s.dataWindow)) ∧
    ((Raising.stopListening s stop).pending = none ∧
      (Raising.stopListening s stop).state.alerts
        = s.alerts ++ (Raising.stopListening s stop).raised ∧
      (Raising.stopListening s stop).raised
        = (if s.canListen = true then stop.toList else []) ∧
      (stop = none → (Raising.stopListening s stop).state.alerts = s.alerts)) ∧
    ((Raising.populateVoiceList s c).pending = none ∧
      (Raising.populateVoiceList s c).state.alerts
        = s.alerts ++ (Raising.populateVoiceList s c).raised ∧
      (Raising.populateVoiceList s c).raised
        = (if s.canSpeak = true
            then (firstRaise (c.getElementById :: c.innerText ::
              (match c.getVoices with
                | .error ex => [some ex]
                | .ok catalog => (List.range' 0 catalog.length).map c.option))).toList
            else []) ∧
      (c.getElementById = none → c.innerText = none →
        (∃ catalog, c.getVoices = .ok catalog) → (∀ i, c.option i = none) →
        (Raising.populateVoiceList s c).state.alerts = s.alerts)) ∧
    ((Raising.speakIt s textInput doc d).pending = none ∧
      (Raising.speakIt s textInput doc d).state.alerts
        = s.alerts ++ (Raising.speakIt s textInput doc d).raised ∧
      (Raising.speakIt s textInput doc d).raised
        = (match d.value with
            | some ex => [ex]
            | none =>
              if s.canSpeak = true ∧ textInput.value ≠ "" then
                (firstRaise [d.log.innerHTML, d.log.scrollTop]).toList
                  ++ (firstRaise [d.utterance, d.selectedIndex, d.voice, d.pitch, d.rate,
                        d.speak]).toList
              else []) ∧
      (d = SpeakAccess.quiet → (Raising.speakIt s textInput doc d).state.alerts = s.alerts)) := by
  obtain ⟨a1, a2, a3, a4⟩ := startListening_run s a
  obtain ⟨b1, b2, b3⟩ := stopListening_run s stop
  obtain ⟨c1, c2, c3⟩ := populateVoiceList_run s c
  obtain ⟨d1, d2, d3⟩ := speakIt_run s textInput doc d
  refine ⟨⟨a1, a2, a3, ?_, a4⟩, ⟨b1, b2, b3, ?_⟩, ⟨c1, c2, c3, ?_⟩, ⟨d1, d2, d3, ?_⟩⟩
  · intro hstart hlog
    rw [a2, a3, hstart, hlog]
    cases s.canListen <;> simp [firstRaise, LogAccess.quiet]
  · intro hstop
    rw [b2, b3, hstop]
    cases s.canListen <;> simp
  · rintro hlookup hclear ⟨catalog, hcat⟩ hbody
    rw [c2, c3, hlookup, hclear, hcat]
    have hnone : firstRaise ((List.range' 0 catalog.length).map c.option) = none :=
      firstRaise_none _ (by
        intro fault hfault
        obtain ⟨i, -, hi⟩ := List.mem_map.1 hfault
        rw [← hi]; exact hbody i)
    cases s.canSpeak <;> simp [firstRaise, hnone]
  · intro hquiet
    rw [d2, d3, hquiet]
    by_cases hg : s.canSpeak = true ∧ textInput.value ≠ "" <;>
      simp [SpeakAccess.quiet, LogAccess.quiet, firstRaise, hg]

theorem failures_become_one_notice_witness :
    (Raising.speakIt sample { value := "Hello" }
        { selectedIndex := 0, pitch := "1.0", rate := "1.0" }
        { SpeakAccess.quiet with selectedIndex := some Exn.typeError }).pending = none ∧
    (Raising.speakIt sample { value := "Hello" }
        { selectedIndex := 0, pitch := "1.0", rate := "1.0" }
        { SpeakAccess.quiet with selectedIndex := some Exn.typeError }).state.alerts
      = [Exn.typeError] ∧
    (Raising.speakIt sample { value := "Hello" }
        { selectedIndex := 0, pitch := "1.0", rate := "1.0" }
        { SpeakAccess.quiet with selectedIndex := some Exn.typeError }).state.speakCalls = [] := by
  have h := (failures_become_one_notice sample { value := "Hello" }
    { selectedIndex := 0, pitch := "1.0", rate := "1.0" }
    { start := none, log := LogAccess.quiet } none
    { getElementById := none, innerText := none, getVoices := .ok [], option := fun _ => none }
    { SpeakAccess.quiet with selectedIndex := some Exn.typeError }).2.2.2
  exact ⟨h.1, h.2.1.trans (by decide), by decide⟩

/-! ## The voice list -/

theorem appendOptions_eq (catalog : List Voice) :
    ∀ options : List OptionElement,
      appendOptions options catalog = options ++ catalog.map optionFor := by
  induction catalog with
  | nil => intro options; simp [appendOptions]
  | cons voice rest ih => intro options; simp [appendOptions, ih]

theorem populateVoiceList_ok (s : State) (h : s.canSpeak = true) (catalog : List Voice) :
    populateVoiceList s (.ok catalog)
      = { s with voices := catalog, voiceList := catalog.map optionFor } := by
  simp [populateVoiceList, h, appendOptions_eq]

theorem marker_suffix_iff (voice : Voice) :
    defaultMarker.data <:+ (optionFor voice).textContent.data ↔ voice.default = true := by
  constructor
  · intro hsuffix
    cases hd : voice.default with
    | true => rfl
    | false =>
      exfalso
      obtain ⟨front, hfront⟩ := hsuffix
      have htext : (optionFor voice).textContent.data
          = (voice.name.data ++ [' ', '('] ++ voice.lang.data) ++ [')'] := by
        simp [optionFor, hd]
      have hmark : defaultMarker.data = " â€” DEFAUL".data ++ ['T'] := by decide
      rw [htext, hmark, ← List.append_assoc] at hfront
      have hlast := congrArg List.getLast? hfront
      rw [List.getLast?_concat, List.getLast?_concat] at hlast
      exact absurd hlast (by decide)
  · intro hd
    exact ⟨(voice.name ++ " (" ++ voice.lang ++ ")").data, by simp [optionFor, hd]⟩

/-- C6. With synthesis available and `getVoices` returning the catalog, after
`populateVoiceList` the cached voices are the catalog and the selection list
holds one entry per voice, in catalog order, whatever either held before: the
label is the name, the language in brackets, and then the default marker for
the default voice and nothing for the others, so a label ends with the marker
exactly for a default voice. A second call on the same catalog changes
nothing. The catalog A/en-US/default, B/fr-FR gives two entries, the first
one marked and the second not. -/
theorem populateVoiceList_replaces (s : State) (h : s.canSpeak = true) (catalog : List Voice) :
    (populateVoiceList s (.ok catalog)).voices = catalog ∧
    (populateVoiceList s (.ok catalog)).voiceList.length = catalog.length ∧
    (populateVoiceList s (.ok catalog)).voiceList.map (fun option => option.textContent)
      = catalog.map (fun voice =>
          voice.name ++ " (" ++ voice.lang ++ ")" ++ (if voice.default then defaultMarker else "")) ∧
    (∀ i : Nat, ∀ voice : Voice, catalog[i]? = some voice →
      ∃ option, (populateVoiceList s (.ok catalog)).voiceList[i]? = some option ∧
        (defaultMarker.data <:+ option.textContent.data ↔ voice.default = true)) ∧
    populateVoiceList (populateVoiceList s (.ok catalog)) (.ok catalog)
      = populateVoiceList s (.ok catalog) ∧
    (populateVoiceList s (.ok [{ name := "A", lang := "en-US", default := true },
                                { name := "B", lang := "fr-FR", default := false }])).voiceList
      = [{ textContent := "A (en-US)" ++ defaultMarker, dataLang := "en-US", dataName := "A" },
         { textContent := "B (fr-FR)", dataLang := "fr-FR", dataName := "B" }] := by
  have hok := populateVoiceList_ok s h
  have hflag : (populateVoiceList s (.ok catalog)).canSpeak = true := by
    rw [hok]; exact h
  refine ⟨?_, ?_, ?_, ?_, ?_, ?_⟩
  · rw [hok]
  · rw [hok]; simp
  · rw [hok]
    simp only [List.map_map]
    apply List.map_congr_left
    intro voice _
    cases hd : voice.default <;> simp [optionFor, hd]
  · intro i voice hi
    refine ⟨optionFor voice, ?_, marker_suffix_iff voice⟩
    rw [hok]
    simp [List.getElem?_map, hi]
  · rw [populateVoiceList_ok _ hflag, hok]
  · rw [hok]
    rfl

theorem populateVoiceList_replaces_witness :
    (populateVoiceList sample (.ok [{ name := "C", lang := "de-DE", default := false }])).voices
      = [{ name := "C", lang := "de-DE", default := false }] :=
  (populateVoiceList_replaces sample (by decide)
    [{ name := "C", lang := "de-DE", default := false }]).1

/-! ## Results are logged once, in order -/

theorem formattedAll_concat (r : SpeechRecognitionResultList)
    (alternative : SpeechRecognitionAlternative) (others : SpeechRecognitionResult) :
    formattedAll (r ++ [alternative :: others]) = formattedAll r ++ [formatted alternative] := by
  simp [formattedAll, List.filterMap_append]

theorem formattedAll_length (r : SpeechRecognitionResultList) (hr : ∀ result ∈ r, result ≠ []) :
    (formattedAll r).length = r.length := by
  induction r with
  | nil => rfl
  | cons result rest ih =>
    have hrest : ∀ x ∈ rest, x ≠ [] := fun x hx => hr x (List.mem_cons_of_mem _ hx)
    cases result with
    | nil => exact absurd rfl (hr [] (List.mem_cons_self _ _))
    | cons alternative others =>
      have := ih hrest
      simp only [formattedAll] at this
      simp [formattedAll, this]

theorem formattedAll_getElem? (r : SpeechRecognitionResultList) :
    ∀ (k : Nat) (alternative : SpeechRecognitionAlternative) (others : SpeechRecognitionResult),
      (∀ result ∈ r, result ≠ []) → r[k]? = some (alternative :: others) →
      (formattedAll r)[k]? = some (formatted alternative) := by
  induction r with
  | nil => intro k alternative others _ hk; simp at hk
  | cons result rest ih =>
    intro k alternative others hr hk
    have hrest : ∀ x ∈ rest, x ≠ [] := fun x hx => hr x (List.mem_cons_of_mem _ hx)
    cases result with
    | nil => exact absurd rfl (hr [] (List.mem_cons_self _ _))
    | cons first more =>
      cases k with
      | zero =>
        simp at hk
        simp [formattedAll, hk.1]
      | succ k =>
        simp at hk
        have := ih k alternative others hrest hk
        simp only [formattedAll] at this
        simp [formattedAll, this]

theorem deliverPrefixes_ok (r : SpeechRecognitionResultList) (hr : ∀ result ∈ r, result ≠ [])
    (s : State) (h0 : s.numResults = 0) :
    ∀ n : Nat, n ≤ r.length →
      deliverPrefixes r n s
        = .ok { s with numResults := n, dataWindow := s.dataWindow ++ formattedAll (r.take n) } := by
  intro n
  induction n with
  | zero =>
    intro _
    cases s
    simp at h0
    simp [deliverPrefixes, formattedAll, h0]
  | succ n ih =>
    intro hn
    have hlt : n < r.length := hn
    obtain ⟨alternative, others, hres⟩ : ∃ a o, r[n] = a :: o := by
      cases hx : r[n] with
      | nil => exact absurd hx (hr _ (List.getElem_mem _))
      | cons a o => exact ⟨a, o, rfl⟩
    have htake : r.take (n + 1) = r.take n ++ [alternative :: others] := by
      rw [List.take_succ, List.getElem?_eq_getElem hlt, hres]
      rfl
    have hlen : (r.take n).length = n := by
      rw [List.length_take]; omega
    simp only [deliverPrefixes, ih (Nat.le_of_lt hlt)]
    rw [htake, formattedAll_concat]
    simp [onresult, addToLog, formatted, List.getElem?_append_right, hlen]

/-- C1. After a `startListening` that the recognizer accepts, let `onresult`
fire once for every prefix of the result array `r`, shortest first. Every
callback returns, and together they add to the log exactly one line per
result of `r`, in the order of `r`: the k-th added line is the transcript of
the best alternative of `r[k]`, a blank, and its confidence in brackets. The
cursor ends at the length of `r`. -/
theorem each_result_logged_once (s : State) (h : s.canListen = true)
    (r : SpeechRecognitionResultList) (hr : ∀ result ∈ r, result ≠ []) :
    ∃ after : State,
      deliverPrefixes r r.length (startListening s none) = .ok after ∧
      after.dataWindow = (startListening s none).dataWindow ++ formattedAll r ∧
      (formattedAll r).length = r.length ∧
      (∀ (k : Nat) (alternative : SpeechRecognitionAlternative) (others : SpeechRecognitionResult),
        r[k]? = some (alternative :: others) →
        (formattedAll r)[k]?
          = some (alternative.transcript ++ " (" ++ alternative.confidence ++ ")")) ∧
      after.numResults = r.length := by
  have h0 := startListening_numResults s h none
  refine ⟨_, deliverPrefixes_ok r hr (startListening s none) h0 r.length (Nat.le_refl _),
    ?_, formattedAll_length r hr, ?_, rfl⟩
  · simp
  · intro k alternative others hk
    exact formattedAll_getElem? r k alternative others hr hk

theorem each_result_logged_once_witness :
    ∃ after : State,
      deliverPrefixes [[{ transcript := "hello", confidence := "0.9" }],
                       [{ transcript := "world", confidence := "0.8" }]] 2
          (startListening sample none) = .ok after ∧
      after.dataWindow = (startListening sample none).dataWindow
          ++ ["hello (0.9)", "world (0.8)"] := by
  obtain ⟨after, hrun, hlog, -⟩ := each_result_logged_once sample (by decide)
    [[{ transcript := "hello", confidence := "0.9" }],
     [{ transcript := "world", confidence := "0.8" }]] (by decide)
  exact ⟨after, hrun, by rw [hlog]; rfl⟩

/-! ## Startup -/

/-- C7, as stated, fails. On a browser that has the synthesizer and lacks the
recognizer the startup block leaves `canSpeak` false although synthesis is
exposed, the selection list stays empty, and a later `speakIt` with the text
`Hello` submits nothing. -/
theorem startup_synthesis_needs_recognition :
    ¬ ((startup synthesisOnly (loaded [] [])
          (.ok [{ name := "A", lang := "en-US", default := true }]) none).canSpeak = true
        ↔ synthesisOnly.speechSynthesis = true) ∧
    (startup synthesisOnly (loaded [] [])
        (.ok [{ name := "A", lang := "en-US", default := true }]) none).voiceList = [] ∧
    (speakIt (startup synthesisOnly (loaded [] [])
        (.ok [{ name := "A", lang := "en-US", default := true }]) none)
        { value := "Hello" } { selectedIndex := 0, pitch := "1.0", rate := "1.0" } none).speakCalls
      = [] := by
  decide

/-- C7, amended. After the startup block, `canListen` holds exactly when the
window has a recognition constructor and a recognition event constructor and
`new SpeechRecognition ()` returns; `canSpeak` holds exactly when, on top of
that, the window has the synthesizer. Without the two constructors the block
only raises the notice that the browser does not support speech, and when the
constructor raises it only raises the notice of that exception: in both cases
`canSpeak` is false, and with `canSpeak` false a later `speakIt` does nothing.
With a listener and the synthesizer, the catalog returned by `getVoices` is
cached and listed, and a later `speakIt` with a non-empty text submits its
utterance. -/
theorem startup_capabilities (w : Window) (log : List String) (options : List OptionElement)
    (getVoices : Except Exn (List Voice)) (start : Option Exn) :
    ((startup w (loaded log options) getVoices start).canListen = true ↔
      (SpeechRecognition w = true ∧ SpeechRecognitionEvent w = true ∧
        w.newSpeechRecognition = none)) ∧
    ((startup w (loaded log options) getVoices start).canSpeak = true ↔
      (SpeechRecognition w = true ∧ SpeechRecognitionEvent w = true ∧
        w.newSpeechRecognition = none ∧ w.speechSynthesis = true)) ∧
    (¬ (SpeechRecognition w = true ∧ SpeechRecognitionEvent w = true) →
      startup w (loaded log options) getVoices start
        = alert (loaded log options)
            (Exn.thrown "This browser does not support speech.\nPlease use the Chrome browser.")) ∧
    (∀ ex : Exn, SpeechRecognition w = true ∧ SpeechRecognitionEvent w = true ∧
        w.newSpeechRecognition = some ex →
      startup w (loaded log options) getVoices start = alert (loaded log options) ex) ∧
    ((startup w (loaded log options) getVoices start).canSpeak = false →
      ∀ (textInput : TextInput) (doc : Controls) (speak : Option Exn),
        speakIt (startup w (loaded log options) getVoices start) textInput doc speak
          = startup w (loaded log options) getVoices start) ∧
    (SpeechRecognition w = true ∧ SpeechRecognitionEvent w = true ∧
        w.newSpeechRecognition = none ∧ w.speechSynthesis = true →
      (∀ catalog : List Voice, getVoices = .ok catalog →
        (startup w (loaded log options) getVoices start).voices = catalog ∧
        (startup w (loaded log options) getVoices start).voiceList = catalog.map optionFor) ∧
      ∀ (text : String) (doc : Controls) (speak : Option Exn), text ≠ "" →
        (speakIt (startup w (loaded log options) getVoices start) { value := text } doc
            speak).speakCalls
          = [utteranceFor (startup w (loaded log options) getVoices start).voices text doc]) := by
  have hflags :
      ((startup w (loaded log options) getVoices start).canListen = true ↔
        (SpeechRecognition w = true ∧ SpeechRecognitionEvent w = true ∧
          w.newSpeechRecognition = none)) ∧
      ((startup w (loaded log options) getVoices start).canSpeak = true ↔
        (SpeechRecognition w = true ∧ SpeechRecognitionEvent w = true ∧
          w.newSpeechRecognition = none ∧ w.speechSynthesis = true)) ∧
      (startup w (loaded log options) getVoices start).speakCalls = [] := by
    cases hr : SpeechRecognition w <;> cases he : SpeechRecognitionEvent w <;>
      cases hn : w.newSpeechRecognition <;> cases hs : w.speechSynthesis <;>
      cases getVoices <;> cases start <;>
      simp [startup, hr, he, hn, hs, loaded, alert, addToLog, populateVoiceList, startListening]
  obtain ⟨hlisten, hspeak, hcalls⟩ := hflags
  refine ⟨hlisten, hspeak, ?_, ?_, ?_, ?_⟩
  · intro hno
    cases hr : SpeechRecognition w <;> cases he : SpeechRecognitionEvent w <;>
      simp [hr, he] at hno <;> simp [startup, hr, he]
  · rintro ex ⟨hr, he, hn⟩
    simp [startup, hr, he, hn]
  · intro hcan textInput doc speak
    simp [speakIt, hcan]
  · intro hyes
    have hcan := hspeak.2 hyes
    obtain ⟨hr, he, hn, hs⟩ := hyes
    refine ⟨?_, ?_⟩
    · intro catalog hcat
      subst hcat
      cases start <;>
        simp [startup, hr, he, hn, hs, loaded, alert, addToLog, populateVoiceList,
          startListening, appendOptions_eq]
    · intro text doc speak htext
      have hstep := (speakIt_step _ hcan { value := text } htext doc speak).1
      rw [hstep, hcalls]
      rfl

theorem startup_capabilities_witness :
    (startup { chrome with newSpeechRecognition := some (Exn.platform "NotAllowedError") }
        (loaded [] []) (.ok [{ name := "A", lang := "en-US", default := true }]) none)
      = alert (loaded [] []) (Exn.platform "NotAllowedError") :=
  (startup_capabilities { chrome with newSpeechRecognition := some (Exn.platform "NotAllowedError") }
    [] [] (.ok [{ name := "A", lang := "en-US", default := true }]) none).2.2.2.1
    (Exn.platform "NotAllowedError") (by decide)

/-! ## The cursor and the session of the recognizer -/

/-- Every step other than a `start` on a listening recognizer keeps the cursor
at the number of results the session has delivered, as long as every result
has an alternative. -/
theorem step_keeps_cursor (w : World) (e : Step)
    (hinv : w.adapter.numResults = w.recognizer.results.length)
    (hstart : e = Step.startListening →
      w.adapter.canListen = false ∨ w.recognizer.listening = false)
    (hresult : ∀ r, e = Step.result r → r ≠ []) :
    (step w e).adapter.numResults = (step w e).recognizer.results.length := by
  cases e with
  | startListening =>
    cases hc : w.adapter.canListen with
    | false => simp [step, hc, startListening, hinv]
    | true =>
      rcases hstart rfl with h | h
      · rw [hc] at h; exact absurd h (by decide)
      · simp [step, hc, h, startListening, addToLog]
  | stopListening =>
    cases hc : w.adapter.canListen <;> simp [step, stopListening, hc, hinv]
  | result r =>
    cases hl : w.recognizer.listening with
    | false => simp [step, hl, hinv]
    | true =>
      cases r with
      | nil => exact absurd rfl (hresult [] rfl)
      | cons alternative others =>
        simp [step, hl, onresult, hinv, addToLog]
  | noMatch => simp [step, onnomatch, addToLog, hinv]
  | error code => simp [step, onerror, addToLog, hinv]
  | ended => simp [step, onend, addToLog, hinv]

/-- C3 on the code. The session delivers a first result, the caller calls
`startListening`, the recognizer rejects the `start` because it is listening,
and the session goes on. The cursor, which was 1, is 0 again although the
session has delivered one result and its next unread result is at index 1;
the next result makes the adapter log the first result a second time. -/
theorem rejected_start_rewinds_cursor :
    (run (boot chrome (.ok []))
      [Step.result [{ transcript := "one", confidence := "0.9" }]]).adapter.numResults = 1 ∧
    (run (boot chrome (.ok []))
      [Step.result [{ transcript := "one", confidence := "0.9" }],
       Step.startListening]).recognizer
      = { listening := true, results := [[{ transcript := "one", confidence := "0.9" }]] } ∧
    (run (boot chrome (.ok []))
      [Step.result [{ transcript := "one", confidence := "0.9" }],
       Step.startListening]).adapter.alerts = [Exn.platform "InvalidStateError"] ∧
    (run (boot chrome (.ok []))
      [Step.result [{ transcript := "one", confidence := "0.9" }],
       Step.startListening]).adapter.numResults = 0 ∧
    (run (boot chrome (.ok []))
      [Step.result [{ transcript := "one", confidence := "0.9" }],
       Step.startListening,
       Step.result [{ transcript := "two", confidence := "0.8" }]]).adapter.dataWindow
      = ["Listening ...", "one (0.9)", "one (0.9)"] := by
  decide

end WebSpeech
